import Mathlib

/-!
Verification development for the prompt-stack frontend session coordinator
(the workspace page in the repository, together with its REST client).

The JavaScript source is shallowly embedded: each React state variable of the
workspace page becomes a field of the structure `Model`; each event handler
(closure over the setState calls) becomes a pure function `Model → Model`;
the WebSocket connect promise race becomes a fold of settle events over an
explicit promise state; the REST client becomes functions from an abstract
HTTP response to a result plus the stored-credential state.
-/

/-- Presentation tuple held in the React state variable status:
an object with fields status (a label) and color (a CSS class). -/
structure StatusBadge where
  label : String
  color : String
deriving Repr, DecidableEq

/-- Transcript entry. In the source a message object has a role string, a
content string, and (for user messages only) an images array; assistant
entries created by handleChatChunk carry no images field, which is modelled
as images = none. -/
structure Message where
  role : String
  content : String
  images : Option (List String)
deriving Repr, DecidableEq

/-- Inbound socket frame as the dynamic JS object that handleSocketMessage
receives: a for_type discriminator plus the union of the payload fields the
three handlers read. Fields a given frame does not carry keep their default
(none / empty), matching an absent JS property where the handlers read one. -/
structure SocketData where
  for_type : String
  status : Option String := none
  tunnels : List (Nat × String) := []
  content : String := ""
  complete : Bool := false
  suggested_follow_ups : Option (List String) := none
  paths : List String := []
deriving Repr, DecidableEq

/-- The UI-visible model: the React state variables of WorkspacePage that the
socket handlers and handleSendMessage touch. -/
structure Model where
  messages : List Message
  respStreaming : Bool
  projectPreviewUrl : Option String
  projectFileTree : List String
  suggestedFollowUps : List String
  previewHash : Nat
  status : StatusBadge
deriving Repr, DecidableEq

def disconnectedBadge : StatusBadge := ⟨"Disconnected", "bg-gray-500"⟩

def settingUpBadge : StatusBadge := ⟨"Setting up (~3m)", "bg-yellow-500"⟩

def readyBadge : StatusBadge := ⟨"Ready", "bg-green-500"⟩

/-- Lookup of data.tunnels[3000]: association-list read of the tunnels
object at a numeric key; an absent key reads as undefined (none). -/
def tunnelLookup (port : Nat) : List (Nat × String) → Option String
  | [] => none
  | (p, u) :: rest => if p = port then some u else tunnelLookup port rest

/-- Embedding of handleSandboxStatus: on status READY set the green badge and
set projectPreviewUrl to data.tunnels[3000]; on BUILDING set the yellow
badge; any other status leaves the model unchanged. -/
def handleSandboxStatus (data : SocketData) (m : Model) : Model :=
  if data.status = some "READY" then
    { m with status := readyBadge,
             projectPreviewUrl := tunnelLookup 3000 data.tunnels }
  else if data.status = some "BUILDING" then
    { m with status := settingUpBadge }
  else m

/-- Embedding of handleSandboxFileTree: replace projectFileTree with
data.paths wholesale. -/
def handleSandboxFileTree (data : SocketData) (m : Model) : Model :=
  { m with projectFileTree := data.paths }

/-- The setMessages updater inside handleChatChunk: if the last entry of prev
has role assistant, replace it by a copy whose content has the fragment
appended (prev.slice(0,-1) concat the merged entry); otherwise push a fresh
assistant entry holding just the fragment. An empty prev reads an undefined
last message, whose optional-chained role is not assistant. -/
def chatChunkMessages (c : String) (prev : List Message) : List Message :=
  match prev.getLast? with
  | some lastMessage =>
    if lastMessage.role = "assistant" then
      prev.dropLast ++ [{ lastMessage with content := lastMessage.content ++ c }]
    else
      prev ++ [⟨"assistant", c, none⟩]
  | none => prev ++ [⟨"assistant", c, none⟩]

/-- Embedding of handleChatChunk: fold the fragment into messages; if
data.complete is truthy, clear respStreaming and increment previewHash; if
data.suggested_follow_ups is truthy (any present array, since a JS array is
always truthy), replace suggestedFollowUps with it. -/
def handleChatChunk (data : SocketData) (m : Model) : Model :=
  let m1 := { m with messages := chatChunkMessages data.content m.messages }
  let m2 :=
    if data.complete then
      { m1 with respStreaming := false, previewHash := m1.previewHash + 1 }
    else m1
  match data.suggested_follow_ups with
  | some fus => { m2 with suggestedFollowUps := fus }
  | none => m2

/-- Embedding of handleSocketMessage: dispatch on the for_type discriminator;
any unrecognized tag falls through every branch and performs no state
update (the console.log is I/O-free of the model). -/
def handleSocketMessage (data : SocketData) (m : Model) : Model :=
  if data.for_type = "sandbox_status" then handleSandboxStatus data m
  else if data.for_type = "chat_chunk" then handleChatChunk data m
  else if data.for_type = "sandbox_file_tree" then handleSandboxFileTree data m
  else m

/-- Dispatch a whole arrival-ordered sequence of inbound frames. -/
def dispatchAll (ds : List SocketData) (m : Model) : Model :=
  ds.foldl (fun mm d => handleSocketMessage d mm) m

/-- Build the chat_chunk frame for a content fragment, complete=false for
every fragment but the last of a turn. -/
def mkChunk (c : String) (complete : Bool) : SocketData :=
  { for_type := "chat_chunk", content := c, complete := complete }

/-- The arrival-ordered chunk frames of one streamed turn: every fragment
with complete=false except the final one with complete=true. -/
def turnChunks (cs : List String) : List SocketData :=
  match cs with
  | [] => []
  | [c] => [mkChunk c true]
  | c :: rest => mkChunk c false :: turnChunks rest

/-! Outbound send path (handleSendMessage). -/

/-- Argument object of handleSendMessage: content string plus an images
array. -/
structure SendInput where
  content : String
  images : List String
deriving Repr, DecidableEq

/-- Outbound socket frame sent through the connection handle. -/
structure OutboundFrame where
  chat : List Message
deriving Repr, DecidableEq

/-- Failure of the send path. The source dereferences webSocketRef.current
without a null check, so a send with no live handle throws; the spec's
taxonomy names this failure NotConnected. -/
inductive SendError where
  | notConnected
deriving Repr, DecidableEq

/-- Everything observable about one handleSendMessage call: the model after
the call, the frames pushed through the connection handle, the REST
createChat body if one was issued, and the error the call threw, if any. -/
structure SendResult where
  model : Model
  transportCalls : List OutboundFrame
  restCreateChat : Option String
  error : Option SendError
deriving Repr, DecidableEq

/-- Embedding of the JS String.prototype.trim called by the guard of
handleSendMessage: strip leading and trailing whitespace. Written by
structural recursion over the character list so that it evaluates on
concrete inputs. -/
def jsTrim (s : String) : String :=
  ⟨((s.data.dropWhile Char.isWhitespace).reverse.dropWhile Char.isWhitespace).reverse⟩

/-- Embedding of handleSendMessage. The guard returns at once when the
trimmed content is empty (falsy) and the images array is empty. Otherwise a
user message is built, respStreaming is set and the user message appended;
then for chatId new a REST createChat is issued, else the frame
containing messages concat the user message is pushed through
webSocketRef.current, which throws when the ref is null. -/
def handleSendMessage (chatId : String) (handleLive : Option Unit)
    (m : Model) (message : SendInput) : SendResult :=
  if jsTrim message.content = "" ∧ message.images.length = 0 then
    { model := m, transportCalls := [], restCreateChat := none, error := none }
  else
    let userMessage : Message := ⟨"user", message.content, some message.images⟩
    let m1 := { m with respStreaming := true,
                       messages := m.messages ++ [userMessage] }
    if chatId = "new" then
      { model := m1, transportCalls := [],
        restCreateChat := some message.content, error := none }
    else
      match handleLive with
      | none =>
        { model := m1, transportCalls := [], restCreateChat := none,
          error := some SendError.notConnected }
      | some _ =>
        { model := m1,
          transportCalls := [⟨m.messages ++ [userMessage]⟩],
          restCreateChat := none, error := none }

/-! Connection handles and initializeWebSocket (the session-open
operation). Modelled from the spec: the ProjectWebSocketService class
itself is not among the provided sources; per the spec its disconnect()
closes the transport (idempotently), so a handle is a tagged liveness
flag that disconnect clears. -/

/-- Modelled from the spec: the ProjectWebSocketService class is not among
the provided sources; per the spec a Connection Handle wraps one socket, so
an instance is an identifying tag plus whether its transport is still
open. -/
structure WSHandle where
  id : Nat
  live : Bool
deriving Repr, DecidableEq

/-- Coordinator-level connection state: every handle ever constructed by
the page, and the id held in webSocketRef.current (none before the first
open). -/
structure CoordState where
  handles : List WSHandle
  current : Option Nat
deriving Repr, DecidableEq

/-- Modelled from the spec: webSocketRef.current.disconnect() closes the
transport of the handle the ref designates (disconnect is idempotent, so a
dead handle stays dead). -/
def disconnectHandle (i : Nat) (hs : List WSHandle) : List WSHandle :=
  hs.map (fun h => if h.id = i then { h with live := false } else h)

def liveCount (hs : List WSHandle) : Nat :=
  (hs.filter (fun h => h.live)).length

/-- Embedding of initializeWebSocket (connect succeeding): if the ref holds
a handle, disconnect it first; then construct a fresh
ProjectWebSocketService, connect it, and store it in the ref. -/
def initializeWebSocket (s : CoordState) : CoordState :=
  let hs :=
    match s.current with
    | some i => disconnectHandle i s.handles
    | none => s.handles
  let newId := s.handles.length
  { handles := hs ++ [⟨newId, true⟩], current := some newId }

/-- Invariant the page maintains: any handle whose transport is still open
is the one webSocketRef.current designates. -/
def refOwnsLive (s : CoordState) : Prop :=
  ∀ h ∈ s.handles, h.live = true → s.current = some h.id

/-! Transport-level events delivered to an established session, and the
connect promise race of connectWS. -/

/-- What the ws.ws.onclose callback does to the model: Disconnected badge
and projectPreviewUrl cleared. -/
def onCloseUpdate (m : Model) : Model :=
  { m with status := disconnectedBadge, projectPreviewUrl := none }

/-- Transport callback firings after the connect promise has settled. -/
inductive TransportEvent where
  | close
  | error
  | message (d : SocketData)
deriving Repr, DecidableEq

/-- Delivery of one transport event once the session is established: onclose
runs onCloseUpdate; onerror calls reject on the already-settled connect
promise, a no-op; a data frame goes through handleSocketMessage. -/
def deliverTransportEvent (ev : TransportEvent) (m : Model) : Model :=
  match ev with
  | TransportEvent.close => onCloseUpdate m
  | TransportEvent.error => m
  | TransportEvent.message d => handleSocketMessage d m

/-- Reasons the connect promise of connectWS can reject: the onerror
callback, or the 5000 ms setTimeout (the spec's ConnectionTimeout). -/
inductive ConnectFailure where
  | transportError
  | connectionTimeout
deriving Repr, DecidableEq

/-- State of the connect promise. -/
inductive PromiseState where
  | pending
  | resolved
  | rejected (reason : ConnectFailure)
deriving Repr, DecidableEq

/-- Settle attempts racing on the connect promise: onopen resolving, onerror
rejecting, the timeout rejecting. -/
inductive ConnectSignal where
  | openSig
  | errorSig
  | timeoutSig
deriving Repr, DecidableEq

/-- Promise semantics: a settle attempt on an already-settled promise is a
no-op. -/
def settle (p : PromiseState) (e : ConnectSignal) : PromiseState :=
  match p, e with
  | PromiseState.pending, ConnectSignal.openSig => PromiseState.resolved
  | PromiseState.pending, ConnectSignal.errorSig =>
      PromiseState.rejected ConnectFailure.transportError
  | PromiseState.pending, ConnectSignal.timeoutSig =>
      PromiseState.rejected ConnectFailure.connectionTimeout
  | p, _ => p

/-- Final state of the connect promise after the given settle attempts fire
in order. -/
def connectOutcome (events : List ConnectSignal) : PromiseState :=
  events.foldl settle PromiseState.pending

/-- Outcome a single settle attempt produces on a pending promise. -/
def settleFirst (e : ConnectSignal) : PromiseState :=
  settle PromiseState.pending e

/-- Raw transport firings during connect, stamped with milliseconds since
connect was called. -/
inductive RawSignal where
  | rawOpen
  | rawError
deriving Repr, DecidableEq

def rawToSignal : RawSignal → ConnectSignal
  | RawSignal.rawOpen => ConnectSignal.openSig
  | RawSignal.rawError => ConnectSignal.errorSig

/-- The settle attempts the event loop runs for connectWS: the transport
firings strictly before the 5000 ms deadline, then the setTimeout callback
(never cancelled), then the late transport firings. -/
def raceEvents (sigs : List (Nat × RawSignal)) : List ConnectSignal :=
  (sigs.filter (fun s => s.1 < 5000)).map (fun s => rawToSignal s.2)
    ++ [ConnectSignal.timeoutSig]
    ++ (sigs.filter (fun s => ¬ s.1 < 5000)).map (fun s => rawToSignal s.2)

/-- What connectWS does to the model once the awaited promise settles: on
resolution the yellow setting-up badge is set; on rejection the catch block
sets the Disconnected badge (and touches nothing else); while pending
nothing has run. The Nat component counts connect attempts made: the body
calls ws.connect() exactly once and the catch does not retry. -/
def connectWS (events : List ConnectSignal) (m : Model) :
    Model × Option ConnectFailure × Nat :=
  match connectOutcome events with
  | PromiseState.resolved => ({ m with status := settingUpBadge }, none, 1)
  | PromiseState.rejected r => ({ m with status := disconnectedBadge }, some r, 1)
  | PromiseState.pending => (m, none, 1)

/-! REST client (ApiClient). Two variants exist in the sources; the one
with team/chat endpoints is embedded here: every verb helper throws
Error("API error: " ++ statusText) on a non-ok response, and only
getCurrentUser catches, tests the message for "401" or "Unauthorized",
and on a match removes the stored token and reloads the page before
rethrowing. -/

/-- Abstract HTTP response: fetch's ok flag and statusText. -/
structure RestResponse where
  ok : Bool
  statusText : String
deriving Repr, DecidableEq

/-- Browser-side state the client mutates: the stored token and whether
window.location.reload() was forced. -/
structure ClientState where
  token : Option String
  reloaded : Bool
deriving Repr, DecidableEq

/-- Substring test on character lists (JS String.prototype.includes). -/
def charsHaveSub (sub : List Char) : List Char → Bool
  | [] => sub.isEmpty
  | c :: t => matchesHere sub (c :: t) || charsHaveSub sub t
where
  matchesHere : List Char → List Char → Bool
    | [], _ => true
    | _ :: _, [] => false
    | a :: as, b :: bs => a = b && matchesHere as bs

def jsIncludes (s sub : String) : Bool :=
  charsHaveSub sub.data s.data

/-- Shared body of the verb helpers _get, _post, _patch, _delete: a non-ok
response throws an Error carrying the response's status text. -/
def apiRequest (resp : RestResponse) : Except String Unit :=
  if resp.ok then Except.ok () else Except.error ("API error: " ++ resp.statusText)

/-- An ApiClient endpoint method with no catch (getChats, getTeams,
createChat, ...): the thrown error propagates and the browser state is
untouched. -/
def apiPlainCall (st : ClientState) (resp : RestResponse) :
    ClientState × Except String Unit :=
  (st, apiRequest resp)

/-- Embedding of ApiClient.getCurrentUser: on a thrown error whose message
includes 401 or Unauthorized, remove the token, reload, and rethrow;
otherwise rethrow untouched. -/
def getCurrentUser (st : ClientState) (resp : RestResponse) :
    ClientState × Except String Unit :=
  match apiRequest resp with
  | Except.ok u => (st, Except.ok u)
  | Except.error msg =>
    if jsIncludes msg "401" || jsIncludes msg "Unauthorized" then
      ({ token := none, reloaded := true }, Except.error msg)
    else
      (st, Except.error msg)

/-! Remaining definitions: the spec-side concatenation of fragments and
concrete fixtures used to instantiate the theorems. -/

/-- Concatenation, in arrival order, of a turn's fragment contents. -/
def concatContents : List String → String
  | [] => ""
  | c :: rest => c ++ concatContents rest

/-- A concrete model: fresh page state (the initial React state values). -/
def baseModel : Model :=
  { messages := [], respStreaming := false, projectPreviewUrl := none,
    projectFileTree := [], suggestedFollowUps := [], previewHash := 1,
    status := disconnectedBadge }

/-- A concrete model of an established Ready session holding a preview
URL. -/
def readyModel : Model :=
  { baseModel with status := readyBadge,
                   projectPreviewUrl := some "https://x.test" }

/-! Helper lemmas shared by the claim theorems. -/

theorem handleSocketMessage_chunk (d : SocketData) (m : Model)
    (h : d.for_type = "chat_chunk") :
    handleSocketMessage d m = handleChatChunk d m := by
  simp [handleSocketMessage, h]

theorem handleChatChunk_messages (d : SocketData) (m : Model) :
    (handleChatChunk d m).messages = chatChunkMessages d.content m.messages := by
  unfold handleChatChunk
  cases d.suggested_follow_ups <;> by_cases hc : d.complete = true <;> simp [hc]

theorem chatChunkMessages_assistant (c t : String) (img : Option (List String))
    (p : List Message) :
    chatChunkMessages c (p ++ [⟨"assistant", t, img⟩])
      = p ++ [⟨"assistant", t ++ c, img⟩] := by
  simp [chatChunkMessages, List.getLast?_concat, List.dropLast_concat]

theorem chatChunkMessages_newEntry (c : String) (prev : List Message)
    (h : ∀ lm, prev.getLast? = some lm → lm.role ≠ "assistant") :
    chatChunkMessages c prev = prev ++ [⟨"assistant", c, none⟩] := by
  cases hl : prev.getLast? with
  | none => simp [chatChunkMessages, hl]
  | some lm => simp [chatChunkMessages, hl, h lm hl]

theorem dispatchAll_chunks_assistant (ds : List SocketData) :
    (∀ d ∈ ds, d.for_type = "chat_chunk") →
    ∀ (m : Model) (p : List Message) (t : String) (img : Option (List String)),
    m.messages = p ++ [⟨"assistant", t, img⟩] →
    (dispatchAll ds m).messages
      = p ++ [⟨"assistant", t ++ concatContents (ds.map SocketData.content), img⟩] := by
  induction ds with
  | nil =>
    intro _ m p t img hm
    simp [dispatchAll, hm, concatContents, String.append_empty]
  | cons d rest ih =>
    intro hds m p t img hm
    have hd : d.for_type = "chat_chunk" := hds d (by simp)
    have hrest : ∀ d2 ∈ rest, d2.for_type = "chat_chunk" :=
      fun d2 h2 => hds d2 (by simp [h2])
    have hstep : (handleSocketMessage d m).messages
        = p ++ [⟨"assistant", t ++ d.content, img⟩] := by
      rw [handleSocketMessage_chunk d m hd, handleChatChunk_messages, hm,
        chatChunkMessages_assistant]
    have htail := ih hrest (handleSocketMessage d m) p (t ++ d.content) img hstep
    calc (dispatchAll (d :: rest) m).messages
        = (dispatchAll rest (handleSocketMessage d m)).messages := rfl
      _ = p ++ [⟨"assistant",
            (t ++ d.content) ++ concatContents (rest.map SocketData.content), img⟩] := htail
      _ = p ++ [⟨"assistant",
            t ++ concatContents ((d :: rest).map SocketData.content), img⟩] := by
          rw [String.append_assoc]; simp [concatContents]

theorem turnChunks_cons (c : String) (rest : List String) :
    turnChunks (c :: rest) = mkChunk c rest.isEmpty :: turnChunks rest := by
  cases rest <;> rfl

theorem turnChunks_forType (cs : List String) :
    ∀ d ∈ turnChunks cs, d.for_type = "chat_chunk" := by
  induction cs with
  | nil => intro d hd; simp [turnChunks] at hd
  | cons c rest ih =>
    intro d hd
    rw [turnChunks_cons] at hd
    rcases List.mem_cons.mp hd with h | h
    · rw [h]; rfl
    · exact ih d h

theorem turnChunks_contents (cs : List String) :
    (turnChunks cs).map SocketData.content = cs := by
  induction cs with
  | nil => rfl
  | cons c rest ih => rw [turnChunks_cons]; simp [mkChunk, ih]

/-- Claim C1: for every arrival-ordered sequence of chat_chunk frames
(complete=false on every fragment except the final complete=true one)
applied to a transcript whose last entry is not an assistant message, the
resulting final assistant entry's content equals the concatenation, in
arrival order, of all fragment contents, each chunk applied exactly once. -/
theorem chat_chunk_stream_concatenates (cs : List String) (m : Model)
    (hne : cs ≠ [])
    (hlast : ∀ lm, m.messages.getLast? = some lm → lm.role ≠ "assistant") :
    (dispatchAll (turnChunks cs) m).messages
      = m.messages ++ [⟨"assistant", concatContents cs, none⟩] := by
  cases cs with
  | nil => exact absurd rfl hne
  | cons c rest =>
    rw [turnChunks_cons]
    have hstep : (handleSocketMessage (mkChunk c rest.isEmpty) m).messages
        = m.messages ++ [⟨"assistant", c, none⟩] := by
      rw [handleSocketMessage_chunk _ _ rfl, handleChatChunk_messages]
      exact chatChunkMessages_newEntry c m.messages hlast
    have htail := dispatchAll_chunks_assistant (turnChunks rest)
      (turnChunks_forType rest)
      (handleSocketMessage (mkChunk c rest.isEmpty) m) m.messages c none hstep
    calc (dispatchAll (mkChunk c rest.isEmpty :: turnChunks rest) m).messages
        = (dispatchAll (turnChunks rest)
            (handleSocketMessage (mkChunk c rest.isEmpty) m)).messages := rfl
      _ = m.messages ++ [⟨"assistant",
            c ++ concatContents ((turnChunks rest).map SocketData.content), none⟩] := htail
      _ = m.messages ++ [⟨"assistant", concatContents (c :: rest), none⟩] := by
          rw [turnChunks_contents]; rfl

/-- Witness for claim C1 at the concrete two-fragment turn He, llo applied
to the fresh page model. -/
theorem chat_chunk_stream_concatenates_witness :
    ["He", "llo"] ≠ ([] : List String)
    ∧ (dispatchAll (turnChunks ["He", "llo"]) baseModel).messages
        = baseModel.messages ++ [⟨"assistant", concatContents ["He", "llo"], none⟩] :=
  ⟨by decide, chat_chunk_stream_concatenates ["He", "llo"] baseModel (by decide)
    (by intro lm h; simp [baseModel] at h)⟩

/-- Claim C2: a send of a non-empty message on an existing chat fails with
NotConnected and produces no transport call when no connection handle is
live, and with an open handle forwards the chat frame (prior transcript
concat the new user message) verbatim through the handle. -/
theorem send_requires_handle (chatId : String) (handleLive : Option Unit)
    (m : Model) (msg : SendInput)
    (hnonempty : ¬(jsTrim msg.content = "" ∧ msg.images.length = 0))
    (hexisting : chatId ≠ "new") :
    (handleLive = none →
      (handleSendMessage chatId handleLive m msg).error = some SendError.notConnected
      ∧ (handleSendMessage chatId handleLive m msg).transportCalls = [])
    ∧ (∀ u, handleLive = some u →
      (handleSendMessage chatId handleLive m msg).error = none
      ∧ (handleSendMessage chatId handleLive m msg).transportCalls
          = [⟨m.messages ++ [⟨"user", msg.content, some msg.images⟩]⟩]) := by
  constructor
  · intro hnone
    subst hnone
    unfold handleSendMessage
    rw [if_neg hnonempty, if_neg hexisting]
    exact ⟨rfl, rfl⟩
  · intro u hsome
    subst hsome
    unfold handleSendMessage
    rw [if_neg hnonempty, if_neg hexisting]
    exact ⟨rfl, rfl⟩

/-- Witness for claim C2: the message hi sent on chat 7, both without and
with a live handle. -/
theorem send_requires_handle_witness :
    ¬(jsTrim "hi" = "" ∧ ([] : List String).length = 0)
    ∧ (handleSendMessage "7" none baseModel ⟨"hi", []⟩).error
        = some SendError.notConnected
    ∧ (handleSendMessage "7" none baseModel ⟨"hi", []⟩).transportCalls = []
    ∧ (handleSendMessage "7" (some ()) baseModel ⟨"hi", []⟩).transportCalls
        = [⟨baseModel.messages ++ [⟨"user", "hi", some []⟩]⟩] := by
  have h1 := send_requires_handle "7" none baseModel ⟨"hi", []⟩
    (by decide) (by decide)
  have h2 := send_requires_handle "7" (some ()) baseModel ⟨"hi", []⟩
    (by decide) (by decide)
  exact ⟨by decide, (h1.1 rfl).1, (h1.1 rfl).2, (h2.2 () rfl).2⟩

/-- Claim C3: dispatching an inbound frame whose for_type is none of
sandbox_status, chat_chunk, sandbox_file_tree leaves the whole model
unchanged (and the dispatcher is a total function, so nothing is raised). -/
theorem unknown_tag_is_noop (d : SocketData) (m : Model)
    (h1 : d.for_type ≠ "sandbox_status")
    (h2 : d.for_type ≠ "chat_chunk")
    (h3 : d.for_type ≠ "sandbox_file_tree") :
    handleSocketMessage d m = m := by
  simp [handleSocketMessage, h1, h2, h3]

/-- Witness for claim C3 at a frame tagged bogus_event delivered to the
Ready fixture model. -/
theorem unknown_tag_is_noop_witness :
    handleSocketMessage { for_type := "bogus_event" } readyModel = readyModel :=
  unknown_tag_is_noop { for_type := "bogus_event" } readyModel
    (by decide) (by decide) (by decide)

/-- Claim C4: dispatching two consecutive READY sandbox_status frames with
different port-3000 tunnel URLs leaves status Ready and the preview URL
equal to the last frame's tunnel URL, and a READY frame always sets the
preview URL from its own payload. -/
theorem ready_preview_no_stale_cache (d1 d2 : SocketData) (m m2 : Model)
    (h1t : d1.for_type = "sandbox_status") (h2t : d2.for_type = "sandbox_status")
    (h1s : d1.status = some "READY") (h2s : d2.status = some "READY")
    (hdiff : tunnelLookup 3000 d1.tunnels ≠ tunnelLookup 3000 d2.tunnels) :
    (dispatchAll [d1, d2] m).status = readyBadge
    ∧ (dispatchAll [d1, d2] m).projectPreviewUrl = tunnelLookup 3000 d2.tunnels
    ∧ (handleSocketMessage d2 m2).projectPreviewUrl = tunnelLookup 3000 d2.tunnels := by
  refine ⟨?_, ?_, ?_⟩ <;>
    simp [dispatchAll, handleSocketMessage, handleSandboxStatus, h1t, h2t, h1s, h2s]

/-- Witness for claim C4 at READY frames carrying tunnel URLs https://a.test
then https://b.test. -/
theorem ready_preview_no_stale_cache_witness :
    (dispatchAll
      [{ for_type := "sandbox_status", status := some "READY",
         tunnels := [(3000, "https://a.test")] },
       { for_type := "sandbox_status", status := some "READY",
         tunnels := [(3000, "https://b.test")] }] baseModel).projectPreviewUrl
      = tunnelLookup 3000 [(3000, "https://b.test")] :=
  (ready_preview_no_stale_cache
    { for_type := "sandbox_status", status := some "READY",
      tunnels := [(3000, "https://a.test")] }
    { for_type := "sandbox_status", status := some "READY",
      tunnels := [(3000, "https://b.test")] }
    baseModel baseModel rfl rfl rfl rfl (by decide)).2.1

/-- Claim C8: a chat_chunk frame with complete=true clears the streaming
flag and increments the preview cache-busting counter by exactly one; a
chunk carrying suggested_follow_ups replaces the follow-up list with it,
and a chunk without the field leaves the list unchanged. -/
theorem chunk_complete_and_followups (d : SocketData) (m : Model)
    (ht : d.for_type = "chat_chunk") :
    (d.complete = true →
      (handleSocketMessage d m).respStreaming = false
      ∧ (handleSocketMessage d m).previewHash = m.previewHash + 1)
    ∧ (∀ fus, d.suggested_follow_ups = some fus →
      (handleSocketMessage d m).suggestedFollowUps = fus)
    ∧ (d.suggested_follow_ups = none →
      (handleSocketMessage d m).suggestedFollowUps = m.suggestedFollowUps) := by
  rw [handleSocketMessage_chunk d m ht]
  refine ⟨fun hc => ?_, fun fus hf => ?_, fun hf => ?_⟩ <;>
    unfold handleChatChunk <;>
    cases hs : d.suggested_follow_ups <;>
    by_cases hc2 : d.complete = true <;>
    simp_all

/-- Witness for claim C8 at a completing chunk carrying one follow-up. -/
theorem chunk_complete_and_followups_witness :
    (handleSocketMessage
      { for_type := "chat_chunk", content := "done", complete := true,
        suggested_follow_ups := some ["Add tests"] } baseModel).respStreaming = false
    ∧ (handleSocketMessage
      { for_type := "chat_chunk", content := "done", complete := true,
        suggested_follow_ups := some ["Add tests"] } baseModel).previewHash
        = baseModel.previewHash + 1
    ∧ (handleSocketMessage
      { for_type := "chat_chunk", content := "done", complete := true,
        suggested_follow_ups := some ["Add tests"] } baseModel).suggestedFollowUps
        = ["Add tests"] := by
  have h := chunk_complete_and_followups
    { for_type := "chat_chunk", content := "done", complete := true,
      suggested_follow_ups := some ["Add tests"] } baseModel rfl
  exact ⟨(h.1 rfl).1, (h.1 rfl).2, h.2.1 ["Add tests"] rfl⟩

/-- Claim C10: a send whose content trims to empty and whose images list is
empty is a complete no-op: model unchanged (streaming flag included), no
transport call, no REST call, no error. -/
theorem empty_send_is_noop (chatId : String) (handleLive : Option Unit)
    (m : Model) (msg : SendInput)
    (hc : jsTrim msg.content = "") (hi : msg.images = []) :
    handleSendMessage chatId handleLive m msg
      = { model := m, transportCalls := [], restCreateChat := none, error := none } := by
  simp [handleSendMessage, hc, hi]

/-- Witness for claim C10 at a whitespace-only message with no images. -/
theorem empty_send_is_noop_witness :
    handleSendMessage "7" (some ()) readyModel ⟨"   ", []⟩
      = { model := readyModel, transportCalls := [], restCreateChat := none,
          error := none } :=
  empty_send_is_noop "7" (some ()) readyModel ⟨"   ", []⟩ (by decide) rfl

/-! Helper lemmas for the connection-handle and connect-race claims. -/

theorem liveCount_append_dead (hs : List WSHandle) (newh : WSHandle)
    (hdead : ∀ hh ∈ hs, hh.live = false) (hlive : newh.live = true) :
    liveCount (hs ++ [newh]) = 1 := by
  unfold liveCount
  rw [List.filter_append]
  have h1 : hs.filter (fun h => h.live) = [] :=
    List.filter_eq_nil_iff.mpr (fun a ha => by simp [hdead a ha])
  rw [h1]
  simp [hlive]

theorem all_dead_when_no_current (s : CoordState) (h : refOwnsLive s)
    (hcur : s.current = none) : ∀ hh ∈ s.handles, hh.live = false := by
  intro hh hmem
  cases hl : hh.live with
  | false => rfl
  | true =>
    have hc := h hh hmem hl
    rw [hcur] at hc
    exact Option.noConfusion hc

theorem prior_dead_after_disconnect (s : CoordState) (h : refOwnsLive s) (i : Nat)
    (hcur : s.current = some i) :
    ∀ hh ∈ disconnectHandle i s.handles, hh.live = false := by
  intro hh hmem
  rcases List.mem_map.mp hmem with ⟨h0, h0mem, heq⟩
  by_cases hid : h0.id = i
  · rw [← heq, if_pos hid]
  · rw [← heq, if_neg hid]
    cases hl : h0.live with
    | false => rfl
    | true =>
      have hc := h h0 h0mem hl
      rw [hcur] at hc
      exact absurd (Option.some.inj hc).symm hid

theorem refOwnsLive_append (prior : List WSHandle) (n : Nat)
    (hdead : ∀ hh ∈ prior, hh.live = false) :
    refOwnsLive ⟨prior ++ [⟨n, true⟩], some n⟩ := by
  intro hh hmem hlive
  rcases List.mem_append.mp hmem with hin | hin
  · rw [hdead hh hin] at hlive
    exact Bool.noConfusion hlive
  · have heq : hh = ⟨n, true⟩ := by simpa using hin
    rw [heq]

theorem initializeWebSocket_one_live (s : CoordState) (h : refOwnsLive s) :
    liveCount (initializeWebSocket s).handles = 1
    ∧ refOwnsLive (initializeWebSocket s) := by
  rcases hcur : s.current with _ | i
  · have hdead := all_dead_when_no_current s h hcur
    have hinit : initializeWebSocket s
        = ⟨s.handles ++ [⟨s.handles.length, true⟩], some s.handles.length⟩ := by
      simp [initializeWebSocket, hcur]
    rw [hinit]
    exact ⟨liveCount_append_dead _ _ hdead rfl, refOwnsLive_append _ _ hdead⟩
  · have hdead := prior_dead_after_disconnect s h i hcur
    have hinit : initializeWebSocket s
        = ⟨disconnectHandle i s.handles ++ [⟨s.handles.length, true⟩],
           some s.handles.length⟩ := by
      simp [initializeWebSocket, hcur]
    rw [hinit]
    exact ⟨liveCount_append_dead _ _ hdead rfl, refOwnsLive_append _ _ hdead⟩

/-- Claim C5: from any coordinator state in which every open handle is the
one held by webSocketRef (the invariant every operation maintains), the
session-open operation disconnects the prior handle before storing the new
one, so one call — and hence any two consecutive calls — leaves exactly one
live Connection Handle. -/
theorem open_session_single_live_handle (s : CoordState) (h : refOwnsLive s) :
    liveCount (initializeWebSocket (initializeWebSocket s)).handles = 1
    ∧ liveCount (initializeWebSocket s).handles = 1
    ∧ refOwnsLive (initializeWebSocket s) := by
  have h1 := initializeWebSocket_one_live s h
  have h2 := initializeWebSocket_one_live (initializeWebSocket s) h1.2
  exact ⟨h2.1, h1.1, h1.2⟩

/-- Witness for claim C5 starting from a coordinator owning one open
handle. -/
theorem open_session_single_live_handle_witness :
    liveCount (initializeWebSocket (initializeWebSocket
        ⟨[⟨0, true⟩], some 0⟩)).handles = 1
    ∧ liveCount (initializeWebSocket ⟨[⟨0, true⟩], some 0⟩).handles = 1 := by
  have h := open_session_single_live_handle ⟨[⟨0, true⟩], some 0⟩
    (by intro hh hmem hlive
        have heq : hh = ⟨0, true⟩ := by simpa using hmem
        rw [heq])
  exact ⟨h.1, h.2.1⟩

/-- Counterexample to claim C6 as stated: an error event delivered to an
established Ready session leaves the model unchanged — the onerror callback
only rejects the connect promise, which has already settled, a no-op — so
the status does not transition to Disconnected and the preview URL is not
cleared. -/
theorem error_event_leaves_ready_state :
    deliverTransportEvent TransportEvent.error readyModel = readyModel
    ∧ readyModel.status ≠ disconnectedBadge
    ∧ readyModel.projectPreviewUrl ≠ none := by
  refine ⟨rfl, ?_, ?_⟩ <;> decide

/-- Claim C6 amended: a transport-level close event transitions the session
to Disconnected and clears the preview URL from every state; a transport
error during connection establishment makes the connect attempt fail and is
surfaced as Disconnected with the preview URL left unchanged; an error
event after establishment leaves the model unchanged (the transition is
performed by the accompanying close event). -/
theorem close_disconnects_and_clears (m : Model) (events : List ConnectSignal)
    (r : ConnectFailure) (hrej : connectOutcome events = PromiseState.rejected r) :
    (deliverTransportEvent TransportEvent.close m).status = disconnectedBadge
    ∧ (deliverTransportEvent TransportEvent.close m).projectPreviewUrl = none
    ∧ (connectWS events m).1.status = disconnectedBadge
    ∧ (connectWS events m).1.projectPreviewUrl = m.projectPreviewUrl
    ∧ deliverTransportEvent TransportEvent.error m = m := by
  refine ⟨rfl, rfl, ?_, ?_, rfl⟩ <;> simp [connectWS, hrej]

/-- Witness for the amended claim C6 at the Ready fixture and a connect
attempt rejected by a transport error. -/
theorem close_disconnects_and_clears_witness :
    connectOutcome [ConnectSignal.errorSig]
        = PromiseState.rejected ConnectFailure.transportError
    ∧ (deliverTransportEvent TransportEvent.close readyModel).status
        = disconnectedBadge
    ∧ (deliverTransportEvent TransportEvent.close readyModel).projectPreviewUrl
        = none
    ∧ (connectWS [ConnectSignal.errorSig] readyModel).1.status
        = disconnectedBadge :=
  ⟨rfl,
    (close_disconnects_and_clears readyModel [ConnectSignal.errorSig]
      ConnectFailure.transportError rfl).1,
    (close_disconnects_and_clears readyModel [ConnectSignal.errorSig]
      ConnectFailure.transportError rfl).2.1,
    (close_disconnects_and_clears readyModel [ConnectSignal.errorSig]
      ConnectFailure.transportError rfl).2.2.1⟩

theorem settled_absorbs (events : List ConnectSignal) (p : PromiseState)
    (hp : p ≠ PromiseState.pending) : events.foldl settle p = p := by
  induction events with
  | nil => rfl
  | cons e rest ih =>
    have hstep : settle p e = p := by
      cases p with
      | pending => exact absurd rfl hp
      | resolved => cases e <;> rfl
      | rejected r => cases e <;> rfl
    rw [List.foldl_cons, hstep]
    exact ih

theorem settleFirst_ne_pending (e : ConnectSignal) :
    settleFirst e ≠ PromiseState.pending := by
  cases e <;> decide

/-- Claim C7: the connect promise is won by whichever of open, error, and
the 5000 ms timeout fires first (the later settle attempts are no-ops):
open first resolves it, error first rejects it with the transport error,
and if no transport signal arrives before the deadline the timeout rejects
it with ConnectionTimeout; a rejected connect is surfaced as the
Disconnected status, and connectWS makes exactly one connect attempt (no
automatic retry). -/
theorem connect_race (first : ConnectSignal) (rest : List ConnectSignal)
    (sigs : List (Nat × RawSignal)) (m : Model)
    (hlate : ∀ s ∈ sigs, 5000 ≤ s.1) :
    connectOutcome (first :: rest) = settleFirst first
    ∧ settleFirst ConnectSignal.openSig = PromiseState.resolved
    ∧ settleFirst ConnectSignal.errorSig
        = PromiseState.rejected ConnectFailure.transportError
    ∧ connectOutcome (raceEvents sigs)
        = PromiseState.rejected ConnectFailure.connectionTimeout
    ∧ (∀ r, connectOutcome (first :: rest) = PromiseState.rejected r →
        (connectWS (first :: rest) m).1.status = disconnectedBadge)
    ∧ (connectWS (first :: rest) m).2.2 = 1 := by
  have h1 : connectOutcome (first :: rest) = settleFirst first := by
    show List.foldl settle (settle PromiseState.pending first) rest = settleFirst first
    exact settled_absorbs rest (settleFirst first) (settleFirst_ne_pending first)
  have hfilter : sigs.filter (fun s => s.1 < 5000) = [] := by
    refine List.filter_eq_nil_iff.mpr ?_
    intro a ha
    simp only [decide_eq_true_eq]
    exact Nat.not_lt.mpr (hlate a ha)
  have h4 : connectOutcome (raceEvents sigs)
      = PromiseState.rejected ConnectFailure.connectionTimeout := by
    unfold raceEvents
    rw [hfilter]
    simp only [List.map_nil, List.nil_append, List.singleton_append]
    show List.foldl settle (settle PromiseState.pending ConnectSignal.timeoutSig) _
        = PromiseState.rejected ConnectFailure.connectionTimeout
    exact settled_absorbs _ (PromiseState.rejected ConnectFailure.connectionTimeout)
      (by decide)
  refine ⟨h1, rfl, rfl, h4, ?_, ?_⟩
  · intro r hr
    simp [connectWS, hr]
  · unfold connectWS
    cases connectOutcome (first :: rest) <;> rfl

/-- Witness for claim C7: error beats a later open (the connect rejects),
and a transport whose only signal arrives at 6000 ms times out. -/
theorem connect_race_witness :
    connectOutcome [ConnectSignal.errorSig, ConnectSignal.openSig]
        = settleFirst ConnectSignal.errorSig
    ∧ connectOutcome (raceEvents [(6000, RawSignal.rawOpen)])
        = PromiseState.rejected ConnectFailure.connectionTimeout
    ∧ (connectWS [ConnectSignal.errorSig, ConnectSignal.openSig] baseModel).1.status
        = disconnectedBadge := by
  have h := connect_race ConnectSignal.errorSig [ConnectSignal.openSig]
    [(6000, RawSignal.rawOpen)] baseModel (by decide)
  exact ⟨h.1, h.2.2.2.1, h.2.2.2.2.1 ConnectFailure.transportError h.1⟩

/-- Counterexample to claim C9 as stated: a 401 Unauthorized response to the
getChats request — an authenticated REST request whose method has no catch
handler — is propagated as an error but leaves the stored token in place
and forces no reload, so credential invalidation does not happen on every
authenticated request. -/
theorem unauthorized_kept_token_on_getChats :
    (apiPlainCall ⟨some "tok", false⟩ ⟨false, "Unauthorized"⟩).2
        = Except.error ("API error: " ++ "Unauthorized")
    ∧ (apiPlainCall ⟨some "tok", false⟩ ⟨false, "Unauthorized"⟩).1.token
        = some "tok"
    ∧ (apiPlainCall ⟨some "tok", false⟩ ⟨false, "Unauthorized"⟩).1.reloaded
        = false := by
  refine ⟨rfl, rfl, rfl⟩

/-- Claim C9 amended: every authenticated REST request propagates a non-2xx
response to the caller as an error carrying the response's status text; of
these, only getCurrentUser additionally clears the stored token and forces
a page reload, when the propagated message contains 401 or Unauthorized;
the other request methods leave the stored credentials untouched. -/
theorem rest_error_propagation (st : ClientState) (resp : RestResponse)
    (hok : resp.ok = false) :
    apiRequest resp = Except.error ("API error: " ++ resp.statusText)
    ∧ apiPlainCall st resp = (st, Except.error ("API error: " ++ resp.statusText))
    ∧ ((jsIncludes ("API error: " ++ resp.statusText) "401"
          || jsIncludes ("API error: " ++ resp.statusText) "Unauthorized") = true →
        (getCurrentUser st resp).1 = ⟨none, true⟩
        ∧ (getCurrentUser st resp).2
            = Except.error ("API error: " ++ resp.statusText)) := by
  have hreq : apiRequest resp = Except.error ("API error: " ++ resp.statusText) := by
    simp [apiRequest, hok]
  refine ⟨hreq, ?_, ?_⟩
  · simp [apiPlainCall, hreq]
  · intro hinc
    simp [getCurrentUser, hreq, hinc]

/-- Witness for the amended claim C9: getCurrentUser hit by a 401
Unauthorized response clears the token and reloads. -/
theorem rest_error_propagation_witness :
    (getCurrentUser ⟨some "tok", false⟩ ⟨false, "Unauthorized"⟩).1
        = ⟨none, true⟩
    ∧ (getCurrentUser ⟨some "tok", false⟩ ⟨false, "Unauthorized"⟩).2
        = Except.error ("API error: " ++ "Unauthorized") := by
  have h := rest_error_propagation ⟨some "tok", false⟩ ⟨false, "Unauthorized"⟩ rfl
  exact h.2.2 (by decide)
